import Mathlib

/-!
Verification of the warelib core: callback lifecycle state machines
(`src/warelib/callbacks.py`), the ware manager (`src/warelib/manager.py`)
and the module loader (`src/warelib/ware.py`), via a shallow embedding.

Python values that the claims inspect are modelled by the closed type
`Val`; exceptions by `PyExc`, which records the exception-class facts the
code branches on (`except Exception`, `except (StopAsyncIteration,
RuntimeError)`, `except StopIteration`, `except TypeError`).  A running
generator is modelled by a behaviour table (`GenDef`: the value produced
in response to the n-th `send`, and the response to `throw`) plus a
position counter and the exhaustion flag that CPython keeps for every
generator object.  Stateful methods return the new object state
explicitly.
-/

/-- Python values appearing in the claims.  `coro a` stands for an
un-awaited coroutine object produced by calling an async `run_once(a)`
without awaiting it. -/
inductive Val where
  | none
  | int (n : Int)
  | str (s : String)
  | bool (b : Bool)
  | coro (arg : Val)
deriving DecidableEq, Repr

/-- Exceptions raised by the embedded code.  Constructors mirror the
concrete classes in `exceptions.py` plus the builtin exceptions the code
can raise or catch.  `typeErrorArity` is the `TypeError` CPython raises
when a function is called with the wrong number of arguments. -/
inductive PyExc where
  | typeErrorArity
  | typeErrorMsg (msg : String)
  | keyError (k : String)
  | valueError
  | runtimeError
  | stopIteration (v : Val)
  | stopAsyncIteration
  | generatorExit
  | wareMustEnd
  | wareCallbackMustEnd
  | wareCallbackEnded (v : Val)
  | asyncWareCallbackEnded
  | wareCallbackBegun
  | wareCallbackNotBegun
  | invalidWareStructure (msg : String)
deriving DecidableEq, Repr

namespace PyExc

/-- `isinstance(e, Exception)`: everything except the `GeneratorExit`
family (`GeneratorExit`, `WareMustEnd`, `WareCallbackMustEnd` derive from
`BaseException` but not from `Exception`). -/
def isException : PyExc → Bool
  | generatorExit => false
  | wareMustEnd => false
  | wareCallbackMustEnd => false
  | _ => true

/-- `isinstance(e, (StopAsyncIteration, RuntimeError))`, the clause of
`AsyncGeneratorWareCallback.reset`.  `AsyncWareCallbackEnded` derives from
`StopAsyncIteration`; `WareCallbackBegun` and `WareCallbackNotBegun`
derive from `RuntimeError`. -/
def isStopAsyncIterationOrRuntimeError : PyExc → Bool
  | stopAsyncIteration => true
  | asyncWareCallbackEnded => true
  | runtimeError => true
  | wareCallbackBegun => true
  | wareCallbackNotBegun => true
  | _ => false

/-- `isinstance(e, StopAsyncIteration)`, the clause of
`AsyncGeneratorWareCallback.run_once`. -/
def isStopAsyncIteration : PyExc → Bool
  | stopAsyncIteration => true
  | asyncWareCallbackEnded => true
  | _ => false

end PyExc

/-- Outcome of resuming a synchronous generator once. -/
inductive GenResult where
  | yielded (v : Val)
  | stopped (v : Val)
  | raised (e : PyExc)
deriving DecidableEq, Repr

/-- Behaviour of the generator returned by a generator function: the
response to the n-th resumption (`send`) and the response when an
exception is thrown in while suspended at position n. -/
structure GenDef where
  step : Nat → Val → GenResult
  onThrow : Nat → PyExc → GenResult

/-- A live generator object: its behaviour, how many times it has been
resumed, and whether its frame has finished (returned or raised). -/
structure GenObj where
  gdef : GenDef
  pos : Nat
  exhausted : Bool

namespace GenObj

/-- CPython `gen.send(arg)`.  On an exhausted generator it raises
`StopIteration(None)`; sending a non-`None` value to a just-created
generator raises `TypeError` and leaves the generator untouched. -/
def send (g : GenObj) (arg : Val) : GenResult × GenObj :=
  if g.exhausted then (.stopped Val.none, g)
  else if g.pos = 0 ∧ arg ≠ Val.none then
    (.raised (.typeErrorMsg "cannot send non-None value to a just-started generator"), g)
  else
    match g.gdef.step g.pos arg with
    | .yielded v => (.yielded v, { g with pos := g.pos + 1 })
    | .stopped r => (.stopped r, { g with pos := g.pos + 1, exhausted := true })
    | .raised e => (.raised e, { g with pos := g.pos + 1, exhausted := true })

/-- CPython `gen.throw(e)`.  On an exhausted generator the thrown
exception is re-raised at the call site; otherwise the generator resumes
with the exception raised at its suspension point. -/
def throwInto (g : GenObj) (e : PyExc) : GenResult × GenObj :=
  if g.exhausted then (.raised e, g)
  else
    match g.gdef.onThrow g.pos e with
    | .yielded v => (.yielded v, { g with pos := g.pos + 1 })
    | .stopped r => (.stopped r, { g with pos := g.pos + 1, exhausted := true })
    | .raised e' => (.raised e', { g with pos := g.pos + 1, exhausted := true })

end GenObj

/-- `GeneratorWareCallback`: the generator function (`_callback`, which
applied to the `begin` arguments yields a generator behaviour), the held
generator (`_gen`) and the `_ended` flag. -/
structure GeneratorWareCallback where
  callback : List Val → GenDef
  gen : Option GenObj := Option.none
  ended : Bool := false

namespace GeneratorWareCallback

/-- `is_active`: `self._gen is not None and not self._ended`. -/
def is_active (c : GeneratorWareCallback) : Bool :=
  c.gen.isSome && !c.ended

/-- `has_ended`: `self._ended`. -/
def has_ended (c : GeneratorWareCallback) : Bool :=
  c.ended

/-- `run_once(arg)`: raise `WareCallbackNotBegun` if no generator is
held; otherwise `send` the argument, converting `StopIteration` into
`WareCallbackEnded` carrying the return value and setting `_ended`.
Note that `_gen` is kept even after the generator ends. -/
def run_once (c : GeneratorWareCallback) (arg : Val) :
    Except PyExc Val × GeneratorWareCallback :=
  match c.gen with
  | Option.none => (.error .wareCallbackNotBegun, c)
  | Option.some g =>
    match GenObj.send g arg with
    | (.yielded v, g') => (.ok v, { c with gen := Option.some g' })
    | (.stopped r, g') =>
        (.error (.wareCallbackEnded r), { c with gen := Option.some g', ended := true })
    | (.raised e, g') => (.error e, { c with gen := Option.some g' })

/-- `begin(*args)`: raise `WareCallbackBegun` when a generator is already
held, otherwise create the generator and immediately `run_once(None)`. -/
def begin (c : GeneratorWareCallback) (args : List Val) :
    Except PyExc Val × GeneratorWareCallback :=
  if c.gen.isSome then (.error .wareCallbackBegun, c)
  else
    run_once { c with gen := Option.some ⟨c.callback args, 0, false⟩ } Val.none

/-- `reset(exc_class)`: no-op when no generator is held; otherwise throw
the exception into the generator, return whatever value it produces while
unwinding (`StopIteration` values included), release `_gen` in a
`finally`, and propagate anything else the generator raises. -/
def reset (c : GeneratorWareCallback) (exc : PyExc) :
    Except PyExc (Option Val) × GeneratorWareCallback :=
  match c.gen with
  | Option.none => (.ok Option.none, c)
  | Option.some g =>
    match GenObj.throwInto g exc with
    | (.yielded v, _) => (.ok (Option.some v), { c with gen := Option.none })
    | (.stopped r, _) => (.ok (Option.some r), { c with gen := Option.none })
    | (.raised e, _) => (.error e, { c with gen := Option.none })

end GeneratorWareCallback

/-- Outcome of resuming an async generator once (async generators carry
no return value). -/
inductive AGenResult where
  | yielded (v : Val)
  | stopped
  | raised (e : PyExc)
deriving DecidableEq, Repr

/-- Outcome of `aclose`. -/
inductive CloseResult where
  | closedOk
  | raised (e : PyExc)
deriving DecidableEq, Repr

/-- Behaviour of an async generator: response to the n-th `asend` and the
response to `aclose` at position n. -/
structure AGenDef where
  step : Nat → Val → AGenResult
  onClose : Nat → CloseResult

/-- A live async generator object. -/
structure AGenObj where
  gdef : AGenDef
  pos : Nat
  exhausted : Bool

namespace AGenObj

/-- CPython `agen.asend(arg)` (awaited). -/
def asend (g : AGenObj) (arg : Val) : AGenResult × AGenObj :=
  if g.exhausted then (.raised .stopAsyncIteration, g)
  else if g.pos = 0 ∧ arg ≠ Val.none then
    (.raised (.typeErrorMsg "cannot send non-None value to a just-started async generator"), g)
  else
    match g.gdef.step g.pos arg with
    | .yielded v => (.yielded v, { g with pos := g.pos + 1 })
    | .stopped => (.stopped, { g with pos := g.pos + 1, exhausted := true })
    | .raised e => (.raised e, { g with pos := g.pos + 1, exhausted := true })

/-- CPython `agen.aclose()` (awaited): a no-op on an exhausted generator,
otherwise runs the generator's unwind logic, which may itself raise. -/
def aclose (g : AGenObj) : CloseResult × AGenObj :=
  if g.exhausted then (.closedOk, g)
  else
    match g.gdef.onClose g.pos with
    | .closedOk => (.closedOk, { g with exhausted := true })
    | .raised e => (.raised e, { g with exhausted := true })

end AGenObj

/-- `AsyncGeneratorWareCallback`: inherits `_gen` / `_ended` handling
from `GeneratorWareCallback` but overrides `begin`, `run_once` and
`reset`.  Nothing in the class ever sets `_ended`. -/
structure AsyncGeneratorWareCallback where
  callback : List Val → AGenDef
  gen : Option AGenObj := Option.none
  ended : Bool := false

namespace AsyncGeneratorWareCallback

/-- Inherited `is_active`. -/
def is_active (c : AsyncGeneratorWareCallback) : Bool :=
  c.gen.isSome && !c.ended

/-- Inherited `has_ended`. -/
def has_ended (c : AsyncGeneratorWareCallback) : Bool :=
  c.ended

/-- `begin(*args)` (a plain, non-async method): raise `WareCallbackBegun`
when a generator is already held; otherwise store the freshly created
async generator and return the coroutine object `self.run_once(None)`
WITHOUT awaiting it — the generator is not advanced here. -/
def begin (c : AsyncGeneratorWareCallback) (args : List Val) :
    Except PyExc Val × AsyncGeneratorWareCallback :=
  if c.gen.isSome then (.error .wareCallbackBegun, c)
  else
    (.ok (Val.coro Val.none), { c with gen := Option.some ⟨c.callback args, 0, false⟩ })

/-- `await run_once(arg)`: raise `WareCallbackNotBegun` if no generator
is held; otherwise `asend` the argument, converting `StopAsyncIteration`
into `AsyncWareCallbackEnded`.  The `_ended` flag is NOT set here. -/
def arun_once (c : AsyncGeneratorWareCallback) (arg : Val) :
    Except PyExc Val × AsyncGeneratorWareCallback :=
  match c.gen with
  | Option.none => (.error .wareCallbackNotBegun, c)
  | Option.some g =>
    match AGenObj.asend g arg with
    | (.yielded v, g') => (.ok v, { c with gen := Option.some g' })
    | (.stopped, g') =>
        (.error .asyncWareCallbackEnded, { c with gen := Option.some g' })
    | (.raised e, g') =>
        if e.isStopAsyncIteration then
          (.error .asyncWareCallbackEnded, { c with gen := Option.some g' })
        else (.error e, { c with gen := Option.some g' })

/-- `await reset()`: if a generator is held, `aclose` it, swallowing only
`StopAsyncIteration` and `RuntimeError`; `self._gen = None` runs after
the `try` block, so it is skipped when another exception propagates. -/
def areset (c : AsyncGeneratorWareCallback) :
    Except PyExc Unit × AsyncGeneratorWareCallback :=
  match c.gen with
  | Option.none => (.ok (), c)
  | Option.some g =>
    match AGenObj.aclose g with
    | (.closedOk, _) => (.ok (), { c with gen := Option.none })
    | (.raised e, g') =>
        if e.isStopAsyncIterationOrRuntimeError then (.ok (), { c with gen := Option.none })
        else (.error e, { c with gen := Option.some g' })

end AsyncGeneratorWareCallback

example :
    (GeneratorWareCallback.begin
      { callback := fun _ => ⟨fun _ _ => .yielded (.int 3), fun _ e => .raised e⟩ }
      []).1 = .ok (.int 3) := rfl

/-- The four callback shapes held in a ware's `callbacks` mapping, as a
closed tagged union: `plain` is a bare `WareCallback`, `asyncPlain` an
`AsyncWareCallback` (both modelled by their call behaviour since they are
stateless).  `isinstance(cb, WareCallback)` holds for every tag;
`isinstance(cb, GeneratorWareCallback)` for `gen` and `asyncGen`;
`isinstance(cb, AsyncGeneratorWareCallback)` only for `asyncGen`. -/
inductive Callback where
  | plain (f : List Val → Except PyExc Val)
  | gen (c : GeneratorWareCallback)
  | asyncPlain (f : List Val → Except PyExc Val)
  | asyncGen (c : AsyncGeneratorWareCallback)

/-- Python-dict lookup on an association list. -/
def alookup {α : Type} (k : String) : List (String × α) → Option α
  | [] => Option.none
  | p :: rest => if p.1 = k then Option.some p.2 else alookup k rest

/-- Python-dict assignment `d[k] = v`: replace the entry in place when
the key is present (keeping its position), otherwise append. -/
def dictInsert {α : Type} (d : List (String × α)) (k : String) (v : α) :
    List (String × α) :=
  match d with
  | [] => [(k, v)]
  | p :: rest => if p.1 = k then (k, v) :: rest else p :: dictInsert rest k v

/-- The `Ware` entity as the manager sees it: a name plus the `globals`
and `callbacks` mappings (generic in their value types, as in the
source). -/
structure Ware (G C : Type) where
  name : String
  globals : List (String × G)
  callbacks : List (String × C)

/-- The concrete ware type the manager operates on. -/
abbrev WareV := Ware Val Callback

/-- Replace one callback of a ware (in-place mutation of the callback
object in Python). -/
def setCb (w : WareV) (k : String) (cb : Callback) : WareV :=
  { w with callbacks := dictInsert w.callbacks k cb }

/-- `WareManager`: the registry built from the ware sequence (duplicate
names overwrite) and the host resetter. -/
structure WareManager where
  wares : List (String × WareV)
  resetter : WareV → Except PyExc Bool

namespace WareManager

/-- `WareManager.__init__`: `{ware.name: ware for ware in wares}`. -/
def init (ws : List WareV) (resetter : WareV → Except PyExc Bool) : WareManager :=
  { wares := ws.foldl (fun d w => dictInsert d w.name w) [], resetter := resetter }

/-- `_select_wares`: all wares, or the given names filtered to those
present in the registry (a dict comprehension, so duplicate names
collapse). -/
def select_wares (M : WareManager) (w_names : Option (List String)) :
    List (String × WareV) :=
  match w_names with
  | Option.none => M.wares
  | Option.some ns =>
    ns.foldl
      (fun d n =>
        match alookup n M.wares with
        | Option.some w => dictInsert d n w
        | Option.none => d)
      []

end WareManager

/-- A Python callable passed as `executor`.  The sync operations `begin`,
`run_once`, `gen_run_once` and `reset` (and async `abegin`) define their
executor with a single `ware` parameter, while `_execute_on_wares` and
`_aexecute_on_wares` invoke `executor(name, ware)` with two arguments —
calling a unary function with two arguments raises `TypeError` inside the
`try` block without running the body. -/
inductive PyFun where
  | unary (f : WareV → Except PyExc Val × WareV)
  | binary (f : String → WareV → Except PyExc Val × WareV)

/-- Invoke an executor with two arguments, as the source does. -/
def PyFun.call2 : PyFun → String → WareV → Except PyExc Val × WareV
  | .unary _, _, w => (.error .typeErrorArity, w)
  | .binary f, n, w => f n w

/-- The iteration shared by `_execute_on_wares` and `_aexecute_on_wares`:
run the executor on each selected ware, recording the result under the
ware's name in `successes` or, when an `Exception` is raised, in
`errors`.  An exception that is not an `Exception` instance (the
`GeneratorExit` family) escapes the `except Exception` clause and aborts
the whole batch. -/
def execGo (ex : PyFun) :
    List (String × WareV) → List (String × Val) → List (String × PyExc) →
    WareManager →
    Except PyExc (List (String × Val) × List (String × PyExc) × WareManager)
  | [], succ, errs, M => .ok (succ, errs, M)
  | (n, w) :: rest, succ, errs, M =>
    match PyFun.call2 ex n w with
    | (.ok v, w') =>
        execGo ex rest (succ ++ [(n, v)]) errs
          { M with wares := dictInsert M.wares n w' }
    | (.error e, w') =>
        if e.isException then
          execGo ex rest succ (errs ++ [(n, e)])
            { M with wares := dictInsert M.wares n w' }
        else .error e

namespace WareManager

/-- `_execute_on_wares`. -/
def execute_on_wares (M : WareManager) (w_names : Option (List String))
    (ex : PyFun) :
    Except PyExc (List (String × Val) × List (String × PyExc) × WareManager) :=
  execGo ex (M.select_wares w_names) [] [] M

/-- `_aexecute_on_wares` (awaiting is transparent in the embedding; the
control flow is identical to `_execute_on_wares`). -/
def aexecute_on_wares (M : WareManager) (w_names : Option (List String))
    (ex : PyFun) :
    Except PyExc (List (String × Val) × List (String × PyExc) × WareManager) :=
  execGo ex (M.select_wares w_names) [] [] M

end WareManager

example :
    (dictInsert [("a", (1 : Nat)), ("b", 2)] "a" 7) = [("a", 7), ("b", 2)] := by
  decide

/-- Body of the executor defined inside `WareManager.begin` (a unary
function of the ware): shape-check, then `callback.begin(*wc_args)`. -/
def begin_executor (wc_name : String) (wc_args : List Val) (w : WareV) :
    Except PyExc Val × WareV :=
  match alookup wc_name w.callbacks with
  | Option.none => (.error (.keyError wc_name), w)
  | Option.some cb =>
    match cb with
    | .gen c =>
        let p := GeneratorWareCallback.begin c wc_args
        (p.1, setCb w wc_name (.gen p.2))
    | _ => (.error (.typeErrorMsg "callback is not a GeneratorWareCallback"), w)

/-- Body of the executor defined inside `WareManager.abegin` (unary):
shape-check, then return `callback.begin(*wc_args)` — for an async
generator callback this is the un-awaited coroutine. -/
def abegin_executor (wc_name : String) (wc_args : List Val) (w : WareV) :
    Except PyExc Val × WareV :=
  match alookup wc_name w.callbacks with
  | Option.none => (.error (.keyError wc_name), w)
  | Option.some cb =>
    match cb with
    | .asyncGen c =>
        let p := AsyncGeneratorWareCallback.begin c wc_args
        (p.1, setCb w wc_name (.asyncGen p.2))
    | _ => (.error (.typeErrorMsg "callback is not an AsyncGeneratorWareCallback"), w)

/-- Body of the executor defined inside `WareManager.run_once` (unary):
only a bare `WareCallback` (none of the three subclasses) passes the
shape check. -/
def run_once_executor (wc_name : String) (wc_args : List Val) (w : WareV) :
    Except PyExc Val × WareV :=
  match alookup wc_name w.callbacks with
  | Option.none => (.error (.keyError wc_name), w)
  | Option.some cb =>
    match cb with
    | .plain f => (f wc_args, w)
    | _ => (.error (.typeErrorMsg "callback is not a simple WareCallback"), w)

/-- Body of the executor defined inside `WareManager.gen_run_once`
(unary): shape-check, then `begin(wc_sendval)` when the callback is not
active, else `run_once(wc_sendval)`. -/
def gen_run_once_executor (wc_name : String) (wc_sendval : Val) (w : WareV) :
    Except PyExc Val × WareV :=
  match alookup wc_name w.callbacks with
  | Option.none => (.error (.keyError wc_name), w)
  | Option.some cb =>
    match cb with
    | .gen c =>
        if c.is_active then
          let p := GeneratorWareCallback.run_once c wc_sendval
          (p.1, setCb w wc_name (.gen p.2))
        else
          let p := GeneratorWareCallback.begin c [wc_sendval]
          (p.1, setCb w wc_name (.gen p.2))
    | _ => (.error (.typeErrorMsg "callback is not a GeneratorWareCallback"), w)

/-- Body of the executor defined inside `WareManager.agen_run_once`
(binary — this one takes `(name, ware)`): when the callback is not
active, call `begin(wc_sendval)` (its coroutine result is discarded) and
return `None`; otherwise `await run_once(wc_sendval)`. -/
def agen_run_once_executor (wc_name : String) (wc_sendval : Val)
    (_name : String) (w : WareV) : Except PyExc Val × WareV :=
  match alookup wc_name w.callbacks with
  | Option.none => (.error (.keyError wc_name), w)
  | Option.some cb =>
    match cb with
    | .asyncGen c =>
        if c.is_active then
          let p := AsyncGeneratorWareCallback.arun_once c wc_sendval
          (p.1, setCb w wc_name (.asyncGen p.2))
        else
          let p := AsyncGeneratorWareCallback.begin c [wc_sendval]
          match p.1 with
          | .ok _ => (.ok Val.none, setCb w wc_name (.asyncGen p.2))
          | .error e => (.error e, setCb w wc_name (.asyncGen p.2))
    | _ => (.error (.typeErrorMsg "callback is not an AsyncGeneratorWareCallback"), w)

/-- `callback.run_once()` with no arguments, as phase 3 of the reset
protocol performs it: a bare `WareCallback` runs its function; the
generator variants require an argument, so the call raises an arity
`TypeError`; an `AsyncWareCallback` merely builds a coroutine that is
never awaited. -/
def runOnceNoArgs : Callback → Except PyExc Val
  | .plain f => f []
  | .asyncPlain _ => .ok (Val.coro Val.none)
  | .gen _ => .error .typeErrorArity
  | .asyncGen _ => .error .typeErrorArity

/-- Phase 3 of the reset protocol: if a callback named `reset` exists,
invoke it and swallow any `Exception` it raises (an exception outside
the `Exception` hierarchy still propagates).  Every member of the
`callbacks` mapping is a `WareCallback` instance, so the `TypeError`
branch of the source is unreachable. -/
def resetPhase3 (cbs : List (String × Callback)) : Option PyExc :=
  match alookup "reset" cbs with
  | Option.none => Option.none
  | Option.some cb =>
    match runOnceNoArgs cb with
    | .ok _ => Option.none
    | .error e => if e.isException then Option.none else Option.some e

/-- Phase 2 of the synchronous reset protocol: for every callback except
`reset`, `isinstance(callback, GeneratorWareCallback)` matches both the
sync and the async generator variants; when not ended and active, call
`callback.reset(WareCallbackMustEnd)`.  On the async variant `reset()`
accepts no argument, so that call raises an arity `TypeError`.  A raised
exception aborts the phase, keeping the mutations made so far. -/
def resetPhase2 :
    List (String × Callback) → Option PyExc × List (String × Callback)
  | [] => (Option.none, [])
  | (cn, cb) :: rest =>
    if cn = "reset" then
      let p := resetPhase2 rest
      (p.1, (cn, cb) :: p.2)
    else
      match cb with
      | .gen c =>
        if !c.has_ended && c.is_active then
          match GeneratorWareCallback.reset c .wareCallbackMustEnd with
          | (.ok _, c') =>
              let p := resetPhase2 rest
              (p.1, (cn, .gen c') :: p.2)
          | (.error e, c') => (Option.some e, (cn, .gen c') :: rest)
        else
          let p := resetPhase2 rest
          (p.1, (cn, cb) :: p.2)
      | .asyncGen c =>
        if !c.has_ended && c.is_active then
          (Option.some .typeErrorArity, (cn, cb) :: rest)
        else
          let p := resetPhase2 rest
          (p.1, (cn, cb) :: p.2)
      | _ =>
          let p := resetPhase2 rest
          (p.1, (cn, cb) :: p.2)

/-- Phase 2 of the asynchronous reset protocol: async generator variants
are closed with `await callback.reset()`; sync generator variants with
`callback.reset(WareCallbackMustEnd)`. -/
def aresetPhase2 :
    List (String × Callback) → Option PyExc × List (String × Callback)
  | [] => (Option.none, [])
  | (cn, cb) :: rest =>
    if cn = "reset" then
      let p := aresetPhase2 rest
      (p.1, (cn, cb) :: p.2)
    else
      match cb with
      | .asyncGen c =>
        if !c.has_ended && c.is_active then
          match AsyncGeneratorWareCallback.areset c with
          | (.ok _, c') =>
              let p := aresetPhase2 rest
              (p.1, (cn, .asyncGen c') :: p.2)
          | (.error e, c') => (Option.some e, (cn, .asyncGen c') :: rest)
        else
          let p := aresetPhase2 rest
          (p.1, (cn, cb) :: p.2)
      | .gen c =>
        if !c.has_ended && c.is_active then
          match GeneratorWareCallback.reset c .wareCallbackMustEnd with
          | (.ok _, c') =>
              let p := aresetPhase2 rest
              (p.1, (cn, .gen c') :: p.2)
          | (.error e, c') => (Option.some e, (cn, .gen c') :: rest)
        else
          let p := aresetPhase2 rest
          (p.1, (cn, cb) :: p.2)
      | _ =>
          let p := aresetPhase2 rest
          (p.1, (cn, cb) :: p.2)

/-- Body of the executor defined inside `WareManager.reset` (unary):
resetter, then phase 2, then phase 3; returns `None` on success. -/
def reset_executor (resetter : WareV → Except PyExc Bool) (w : WareV) :
    Except PyExc Val × WareV :=
  match resetter w with
  | .error e => (.error e, w)
  | .ok _ =>
    match resetPhase2 w.callbacks with
    | (Option.some e, cbs') => (.error e, { w with callbacks := cbs' })
    | (Option.none, cbs') =>
      let w2 : WareV := { w with callbacks := cbs' }
      match resetPhase3 cbs' with
      | Option.some e => (.error e, w2)
      | Option.none => (.ok Val.none, w2)

/-- Body of the executor defined inside `WareManager.areset` (binary). -/
def areset_executor (resetter : WareV → Except PyExc Bool)
    (_name : String) (w : WareV) : Except PyExc Val × WareV :=
  match resetter w with
  | .error e => (.error e, w)
  | .ok _ =>
    match aresetPhase2 w.callbacks with
    | (Option.some e, cbs') => (.error e, { w with callbacks := cbs' })
    | (Option.none, cbs') =>
      let w2 : WareV := { w with callbacks := cbs' }
      match resetPhase3 cbs' with
      | Option.some e => (.error e, w2)
      | Option.none => (.ok Val.none, w2)

namespace WareManager

/-- `WareManager.begin`: unary executor, hence the arity mismatch in
`_execute_on_wares`. -/
def begin (M : WareManager) (wc_name : String) (wc_args : List Val)
    (w_names : Option (List String)) :
    Except PyExc (List (String × Val) × List (String × PyExc) × WareManager) :=
  M.execute_on_wares w_names (.unary (begin_executor wc_name wc_args))

/-- `WareManager.abegin`: unary executor, called through
`_aexecute_on_wares`. -/
def abegin (M : WareManager) (wc_name : String) (wc_args : List Val)
    (w_names : Option (List String)) :
    Except PyExc (List (String × Val) × List (String × PyExc) × WareManager) :=
  M.aexecute_on_wares w_names (.unary (abegin_executor wc_name wc_args))

/-- `WareManager.run_once`: unary executor. -/
def run_once (M : WareManager) (wc_name : String) (wc_args : List Val)
    (w_names : Option (List String)) :
    Except PyExc (List (String × Val) × List (String × PyExc) × WareManager) :=
  M.execute_on_wares w_names (.unary (run_once_executor wc_name wc_args))

/-- `WareManager.gen_run_once`: unary executor. -/
def gen_run_once (M : WareManager) (wc_name : String) (wc_sendval : Val)
    (w_names : Option (List String)) :
    Except PyExc (List (String × Val) × List (String × PyExc) × WareManager) :=
  M.execute_on_wares w_names (.unary (gen_run_once_executor wc_name wc_sendval))

/-- `WareManager.agen_run_once`: binary executor (this one actually
runs). -/
def agen_run_once (M : WareManager) (wc_name : String) (wc_sendval : Val)
    (w_names : Option (List String)) :
    Except PyExc (List (String × Val) × List (String × PyExc) × WareManager) :=
  M.aexecute_on_wares w_names (.binary (agen_run_once_executor wc_name wc_sendval))

/-- `WareManager.reset`: unary executor. -/
def reset (M : WareManager) (w_names : Option (List String)) :
    Except PyExc (List (String × Val) × List (String × PyExc) × WareManager) :=
  M.execute_on_wares w_names (.unary (reset_executor M.resetter))

/-- `WareManager.areset`: binary executor (this one actually runs). -/
def areset (M : WareManager) (w_names : Option (List String)) :
    Except PyExc (List (String × Val) × List (String × PyExc) × WareManager) :=
  M.aexecute_on_wares w_names (.binary (areset_executor M.resetter))

end WareManager

/-- Result of calling one Python object on another. -/
inductive CallOutcome where
  | truthy
  | falsy
  | typeErrorRaised
  | otherRaised (e : PyExc)

/-- An abstract Python object as `Ware._load` inspects it: an identity,
whether it is a `type`, its `isinstance` relation as a type, whether it
is callable and what calling it on another object does, and whether it is
itself a `WareCallback`/`GeneratorWareCallback` instance. -/
structure PyObj where
  id : Nat
  isTypeObj : Bool
  instCheck : Nat → Bool
  callableObj : Bool
  callOn : Nat → CallOutcome
  isWareCallbackInst : Bool

/-- A loaded module: `__name__` and `__dict__`. -/
structure PyModule where
  name : String
  dict : List (String × PyObj)

/-- The validation performed by `Ware._load` for one schema entry `(k, v)`
against the module: missing name, failed `isinstance` check for a type
entry, and the `callable(v)` branch (which also fires for type entries
that passed `isinstance`, since types are callable).  A validator raising
`TypeError` is converted to `InvalidWareStructure`; any other exception
propagates unconverted. -/
def loadCheck (k : String) (v : PyObj) (m : PyModule) : Except PyExc Unit :=
  match alookup k m.dict with
  | Option.none => .error (.invalidWareStructure "missing variable")
  | Option.some mval =>
    if v.isTypeObj && !v.instCheck mval.id then
      .error (.invalidWareStructure "variable has the wrong type")
    else if v.callableObj then
      match v.callOn mval.id with
      | .truthy => .ok ()
      | .falsy => .error (.invalidWareStructure "rejected by callable check")
      | .typeErrorRaised => .error (.invalidWareStructure "callable check raised TypeError")
      | .otherRaised e => .error e
    else .ok ()

/-- The loop of `Ware._load` over the schema entries: validate each entry
and then store the SCHEMA VALUE `v` (not the module member) into
`callbacks` when `v` is a `WareCallback`/`GeneratorWareCallback`
instance, and into `globals` otherwise. -/
def loadGo (m : PyModule) :
    List (String × PyObj) → List (String × PyObj) → List (String × PyObj) →
    Except PyExc (List (String × PyObj) × List (String × PyObj))
  | [], gl, cbs => .ok (gl, cbs)
  | (k, v) :: rest, gl, cbs =>
    match loadCheck k v m with
    | .error e => .error e
    | .ok _ =>
      if v.isWareCallbackInst then loadGo m rest gl (dictInsert cbs k v)
      else loadGo m rest (dictInsert gl k v) cbs

/-- Python `name or module.__name__`: the given name unless it is `None`
or falsy (the empty string). -/
def resolveName (name : Option String) (m : PyModule) : String :=
  match name with
  | Option.some s => if s = "" then m.name else s
  | Option.none => m.name

/-- `Ware._load`: resolve the name, then fill `globals` and `callbacks`
by the loop. -/
def Ware.load (m : PyModule) (ns_schema : List (String × PyObj))
    (name : Option String) : Except PyExc (Ware PyObj PyObj) :=
  match loadGo m ns_schema [] [] with
  | .error e => .error e
  | .ok (gl, cbs) =>
    .ok { name := resolveName name m, globals := gl, callbacks := cbs }

/-- One of the seven bulk operations together with its arguments, used to
quantify over all of them at once. -/
inductive BulkOp where
  | beginOp (wc_name : String) (wc_args : List Val) (w_names : Option (List String))
  | abeginOp (wc_name : String) (wc_args : List Val) (w_names : Option (List String))
  | runOnceOp (wc_name : String) (wc_args : List Val) (w_names : Option (List String))
  | genRunOnceOp (wc_name : String) (wc_sendval : Val) (w_names : Option (List String))
  | agenRunOnceOp (wc_name : String) (wc_sendval : Val) (w_names : Option (List String))
  | resetOp (w_names : Option (List String))
  | aresetOp (w_names : Option (List String))

/-- The ware-name selection argument of a bulk operation. -/
def BulkOp.wNames : BulkOp → Option (List String)
  | .beginOp _ _ wn => wn
  | .abeginOp _ _ wn => wn
  | .runOnceOp _ _ wn => wn
  | .genRunOnceOp _ _ wn => wn
  | .agenRunOnceOp _ _ wn => wn
  | .resetOp wn => wn
  | .aresetOp wn => wn

/-- Dispatch a bulk operation to the corresponding manager method. -/
def WareManager.runBulk (M : WareManager) (op : BulkOp) :
    Except PyExc (List (String × Val) × List (String × PyExc) × WareManager) :=
  match op with
  | .beginOp n a wn => M.begin n a wn
  | .abeginOp n a wn => M.abegin n a wn
  | .runOnceOp n a wn => M.run_once n a wn
  | .genRunOnceOp n v wn => M.gen_run_once n v wn
  | .agenRunOnceOp n v wn => M.agen_run_once n v wn
  | .resetOp wn => M.reset wn
  | .aresetOp wn => M.areset wn



/-! ## Concrete instances used by the scenario evaluations and witnesses -/

/-- Ware A's `tick` generator behaviour: yields 1, yields 2, then
returns the string `done-A`. -/
def tickA : GenDef :=
  { step := fun n _ =>
      if n = 0 then .yielded (.int 1)
      else if n = 1 then .yielded (.int 2)
      else .stopped (.str "done-A")
    onThrow := fun _ e => .raised e }

/-- Ware B's `tick` generator behaviour: yields 10, 20, 30, ... and
never completes. -/
def tickB : GenDef :=
  { step := fun n _ => .yielded (.int (10 * (Int.ofNat n + 1)))
    onThrow := fun _ e => .raised e }

/-- Ware A of the two-ware scenario. -/
def wareA : WareV :=
  { name := "A", globals := [],
    callbacks := [("tick", .gen { callback := fun _ => tickA })] }

/-- Ware B of the two-ware scenario. -/
def wareB : WareV :=
  { name := "B", globals := [],
    callbacks := [("tick", .gen { callback := fun _ => tickB })] }

/-- A host resetter that always succeeds. -/
def okResetter : WareV → Except PyExc Bool := fun _ => .ok true

/-- The scenario manager holding wares A and B. -/
def mgrAB : WareManager := WareManager.init [wareA, wareB] okResetter

/-- Projection of a batch result onto the `(successes, errors)` pair. -/
def outcomeOf
    (r : Except PyExc (List (String × Val) × List (String × PyExc) × WareManager)) :
    Option (List (String × Val) × List (String × PyExc)) :=
  match r with
  | .ok (s, e, _) => Option.some (s, e)
  | .error _ => Option.none

/-- Projection of a batch result onto the resulting manager state (with a
fallback for the aborted case). -/
def stateOf
    (r : Except PyExc (List (String × Val) × List (String × PyExc) × WareManager))
    (d : WareManager) : WareManager :=
  match r with
  | .ok (_, _, M) => M
  | .error _ => d

/-- Manager state after the first scenario call. -/
def mgrAB1 : WareManager :=
  stateOf (WareManager.gen_run_once mgrAB "tick" Val.none Option.none) mgrAB

/-- Manager state after the second scenario call. -/
def mgrAB2 : WareManager :=
  stateOf (WareManager.gen_run_once mgrAB1 "tick" Val.none Option.none) mgrAB1

/-- A two-step generator used to build an `Ended` callback: yields 5,
then returns the string `fin`. -/
def tickTwo : GenDef :=
  { step := fun n _ => if n = 0 then .yielded (.int 5) else .stopped (.str "fin")
    onThrow := fun _ e => .raised e }

/-- A `tickTwo` callback that has been begun (active, one yield seen). -/
def gwcStarted : GeneratorWareCallback :=
  (GeneratorWareCallback.begin { callback := fun _ => tickTwo } []).2

/-- A `tickTwo` callback stepped to completion: `_ended` is set but the
exhausted generator is still held. -/
def gwcEnded : GeneratorWareCallback :=
  (GeneratorWareCallback.run_once gwcStarted Val.none).2

/-- The exhausted generator object inside `gwcEnded`. -/
def gwcEndedGen : GenObj := ⟨tickTwo, 2, true⟩

/-- A generator that completes on its very first advance. -/
def stopNow : GenDef :=
  { step := fun _ _ => .stopped (.str "immediate")
    onThrow := fun _ e => .raised e }

/-- A callback over `stopNow` after `begin`: ended immediately. -/
def gwc6Ended : GeneratorWareCallback :=
  (GeneratorWareCallback.begin { callback := fun _ => stopNow } []).2

/-- An async generator behaviour that always yields 7 and closes
cleanly. -/
def agTick : AGenDef :=
  { step := fun _ _ => .yielded (.int 7), onClose := fun _ => .closedOk }

/-- A fresh async-step-sequence callback over `agTick`. -/
def agFresh : AsyncGeneratorWareCallback := { callback := fun _ => agTick }

/-- `agFresh` after `begin` (generator created, never advanced). -/
def agBegun : AsyncGeneratorWareCallback :=
  (AsyncGeneratorWareCallback.begin agFresh []).2

/-- An async generator whose close logic raises `ValueError` (for
example a `finally` block that raises during unwinding). -/
def badClose : AGenDef :=
  { step := fun _ _ => .yielded (.int 1), onClose := fun _ => .raised .valueError }

/-- An active async callback over `badClose`: begun, then advanced once
with `None`. -/
def agc7run : AsyncGeneratorWareCallback :=
  (AsyncGeneratorWareCallback.arun_once
    (AsyncGeneratorWareCallback.begin { callback := fun _ => badClose } []).2
    Val.none).2

/-! ## Helper lemmas about the `_ended` flag -/

/-- `run_once` never clears `_ended`. -/
theorem run_once_keeps_ended (c : GeneratorWareCallback) (v : Val)
    (h : c.ended = true) : (GeneratorWareCallback.run_once c v).2.ended = true := by
  unfold GeneratorWareCallback.run_once
  cases hg : c.gen with
  | none => simpa using h
  | some g =>
    rcases hs : GenObj.send g v with ⟨r, g'⟩
    cases r <;> simp [hs, h]

/-- `begin` never clears `_ended` (a fresh generator can be installed
while the flag stays set). -/
theorem begin_keeps_ended (c : GeneratorWareCallback) (args : List Val)
    (h : c.ended = true) : (GeneratorWareCallback.begin c args).2.ended = true := by
  unfold GeneratorWareCallback.begin
  by_cases hg : c.gen.isSome
  · simp [hg, h]
  · simp only [hg, if_false, Bool.false_eq_true]
    exact run_once_keeps_ended _ _ h

/-- `reset` never clears `_ended`. -/
theorem reset_keeps_ended (c : GeneratorWareCallback) (exc : PyExc)
    (h : c.ended = true) : (GeneratorWareCallback.reset c exc).2.ended = true := by
  unfold GeneratorWareCallback.reset
  cases hg : c.gen with
  | none => simpa using h
  | some g =>
    rcases hs : GenObj.throwInto g exc with ⟨r, g'⟩
    cases r <;> simp [hs, h]

/-! ## C4 — begin semantics of the two step-sequence variants -/

/-- C4 counterexample: on the concrete async-step-sequence callback
`agFresh` in the `NotStarted` state, `begin` does NOT advance the
process once: the stored generator is still at position 0 (no `asend`
has happened, so the first produced value never exists), and the call
returns the un-awaited coroutine object.  The claim asserts that `begin`
immediately advances the process once with the sentinel input. -/
theorem abegin_does_not_advance_counterexample :
    ((AsyncGeneratorWareCallback.begin agFresh [Val.none]).2.gen.map AGenObj.pos)
      = Option.some 0 ∧
    ((AsyncGeneratorWareCallback.begin agFresh [Val.none]).2.gen.map AGenObj.pos)
      ≠ Option.some 1 ∧
    (AsyncGeneratorWareCallback.begin agFresh [Val.none]).1 =
      .ok (Val.coro Val.none) :=
  ⟨rfl, by decide, rfl⟩

/-- C4 (amended): for a synchronous step-sequence callback in
`NotStarted`, `begin` creates the resumable process and immediately
advances it once with the sentinel `None`, returning the first produced
value (or the completion signal / raised error when the process finishes
at once).  For the asynchronous variant, `begin` creates the process but
does NOT advance it: it returns the un-awaited first-advance coroutine
and the process has made no step, so its first value is never
produced. -/
theorem begin_semantics (c : GeneratorWareCallback) (args : List Val)
    (a : AsyncGeneratorWareCallback) (aargs : List Val)
    (hc : c.gen = Option.none) (ha : a.gen = Option.none) :
    (GeneratorWareCallback.begin c args =
      match (c.callback args).step 0 Val.none with
      | .yielded v =>
          (.ok v, { c with gen := Option.some ⟨c.callback args, 1, false⟩ })
      | .stopped r =>
          (.error (.wareCallbackEnded r),
           { c with gen := Option.some ⟨c.callback args, 1, true⟩, ended := true })
      | .raised e =>
          (.error e, { c with gen := Option.some ⟨c.callback args, 1, true⟩ })) ∧
    AsyncGeneratorWareCallback.begin a aargs =
      (.ok (Val.coro Val.none),
       { a with gen := Option.some ⟨a.callback aargs, 0, false⟩ }) := by
  constructor
  · unfold GeneratorWareCallback.begin GeneratorWareCallback.run_once GenObj.send
    simp only [hc, Option.isSome_none, Bool.false_eq_true, if_false]
    cases h : (c.callback args).step 0 Val.none <;> simp [h]
  · unfold AsyncGeneratorWareCallback.begin
    simp [ha]

/-- Witness for C4 at concrete inputs: the sync `tickTwo` callback
begins and yields its first value 5 with the generator advanced to
position 1; the async `agTick` callback begins with its generator left
at position 0 and the coroutine returned. -/
theorem begin_semantics_witness :
    GeneratorWareCallback.begin { callback := fun _ => tickTwo } [] =
      (.ok (Val.int 5),
       { callback := fun _ => tickTwo, gen := Option.some ⟨tickTwo, 1, false⟩ }) ∧
    AsyncGeneratorWareCallback.begin agFresh [] =
      (.ok (Val.coro Val.none),
       { agFresh with gen := Option.some ⟨agTick, 0, false⟩ }) :=
  ⟨(begin_semantics { callback := fun _ => tickTwo } [] agFresh [] rfl rfl).1,
   (begin_semantics { callback := fun _ => tickTwo } [] agFresh [] rfl rfl).2⟩

/-! ## C5 — what `Ended` actually implies -/

/-- C5 counterexample: `gwcEnded` is in the `Ended` state (its generator
completed during a step), yet the resumable-process handle has NOT been
released (`_gen` is still held), and a further `reset` is not a no-op
and does not report "already ended": it re-raises the injected
termination signal out of the exhausted generator. -/
theorem ended_handle_not_released_counterexample :
    gwcEnded.has_ended = true ∧ gwcEnded.gen.isSome = true ∧
    (GeneratorWareCallback.reset gwcEnded PyExc.wareCallbackMustEnd).1 =
      .error PyExc.wareCallbackMustEnd :=
  ⟨rfl, rfl, rfl⟩

/-- C5 (amended): in the `Ended` state the handle is still held until a
`reset`.  While it is held, a further `run_once` reports the ended
condition (`WareCallbackEnded` with payload `None`) and leaves the state
unchanged, while `reset` is NOT a no-op: the termination signal thrown
into the exhausted generator propagates to the caller, and only then is
the handle released.  Once the handle has been released (`Ended` after a
`reset`), a further `run_once` reports `WareCallbackNotBegun` and
`reset` is a genuine no-op. -/
theorem ended_step_reset_behavior (c : GeneratorWareCallback) (v : Val)
    (exc : PyExc) (he : c.ended = true) :
    (∀ g, c.gen = Option.some g → g.exhausted = true →
      GeneratorWareCallback.run_once c v =
        (.error (.wareCallbackEnded Val.none), c) ∧
      GeneratorWareCallback.reset c exc =
        (.error exc, { c with gen := Option.none })) ∧
    (c.gen = Option.none →
      GeneratorWareCallback.run_once c v = (.error .wareCallbackNotBegun, c) ∧
      GeneratorWareCallback.reset c exc = (.ok Option.none, c)) := by
  constructor
  · intro g hg hx
    obtain ⟨cb, gen, ended⟩ := c
    simp only at he hg
    subst he hg
    constructor
    · unfold GeneratorWareCallback.run_once GenObj.send
      simp [hx]
    · unfold GeneratorWareCallback.reset GenObj.throwInto
      simp [hx]
  · intro hg
    constructor <;>
      simp [GeneratorWareCallback.run_once, GeneratorWareCallback.reset, hg]

/-- Witness for C5 at the concrete ended callback `gwcEnded` (handle
still held, exhausted generator inside). -/
theorem ended_step_reset_behavior_witness :
    gwcEnded.ended = true ∧
    GeneratorWareCallback.run_once gwcEnded Val.none =
      (.error (.wareCallbackEnded Val.none), gwcEnded) ∧
    GeneratorWareCallback.reset gwcEnded PyExc.wareCallbackMustEnd =
      (.error PyExc.wareCallbackMustEnd, { gwcEnded with gen := Option.none }) :=
  ⟨rfl,
   ((ended_step_reset_behavior gwcEnded Val.none PyExc.wareCallbackMustEnd rfl).1
      gwcEndedGen rfl rfl).1,
   ((ended_step_reset_behavior gwcEnded Val.none PyExc.wareCallbackMustEnd rfl).1
      gwcEndedGen rfl rfl).2⟩

/-! ## C6 — reset in `NotStarted` and `Ended` -/

/-- The exhausted generator object inside `gwc6Ended`. -/
def gwc6Gen : GenObj := ⟨stopNow, 1, true⟩

/-- C6 counterexample: `gwc6Ended` is `Ended` (its generator completed
on the first advance).  The claim says `reset` on it is a no-op that
raises nothing and leaves the state unchanged; in fact it raises the
injected `WareCallbackMustEnd` signal and clears the held handle. -/
theorem reset_on_ended_raises_counterexample :
    gwc6Ended.ended = true ∧ gwc6Ended.gen.isSome = true ∧
    (GeneratorWareCallback.reset gwc6Ended PyExc.wareCallbackMustEnd).1 =
      .error PyExc.wareCallbackMustEnd ∧
    (GeneratorWareCallback.reset gwc6Ended PyExc.wareCallbackMustEnd).2.gen.isNone
      = true :=
  ⟨rfl, rfl, rfl, rfl⟩

/-- C6 (amended): `reset` on a `NotStarted` step-sequence callback is a
true no-op (no exception, returns `None`, state unchanged, so a later
`begin` remains legal).  `reset` on an `Ended` callback whose exhausted
generator is still held is NOT a no-op: the termination signal
propagates to the caller and the handle is released (which is what makes
a later `begin` legal again). -/
theorem reset_notstarted_ended_behavior (c : GeneratorWareCallback)
    (exc : PyExc) :
    (c.gen = Option.none →
      GeneratorWareCallback.reset c exc = (.ok Option.none, c)) ∧
    (∀ g, c.gen = Option.some g → g.exhausted = true → c.ended = true →
      GeneratorWareCallback.reset c exc =
        (.error exc, { c with gen := Option.none }) ∧
      (GeneratorWareCallback.reset c exc).2.gen = Option.none) := by
  constructor
  · intro hg
    simp [GeneratorWareCallback.reset, hg]
  · intro g hg hx he
    have h1 : GeneratorWareCallback.reset c exc =
        (.error exc, { c with gen := Option.none }) := by
      unfold GeneratorWareCallback.reset GenObj.throwInto
      simp [hg, hx]
    exact ⟨h1, by rw [h1]⟩

/-- Witness for C6: the no-op branch at a fresh `stopNow` callback, and
the raising branch at the concrete ended callback `gwc6Ended`. -/
theorem reset_notstarted_ended_behavior_witness :
    GeneratorWareCallback.reset { callback := fun _ => stopNow }
        PyExc.wareCallbackMustEnd =
      (.ok Option.none, { callback := fun _ => stopNow }) ∧
    GeneratorWareCallback.reset gwc6Ended PyExc.wareCallbackMustEnd =
      (.error PyExc.wareCallbackMustEnd, { gwc6Ended with gen := Option.none }) :=
  ⟨(reset_notstarted_ended_behavior { callback := fun _ => stopNow }
      PyExc.wareCallbackMustEnd).1 rfl,
   ((reset_notstarted_ended_behavior gwc6Ended PyExc.wareCallbackMustEnd).2
      gwc6Gen rfl rfl rfl).1⟩

/-! ## C7 — async reset and errors raised during closing -/

/-- C7: evaluation of the code at the failing input.  `agc7run` holds an
active async generator whose close logic raises `ValueError`.  The
`except (StopAsyncIteration, RuntimeError)` clause of
`AsyncGeneratorWareCallback.reset` does not catch it, so — contrary to
the claim that any error raised strictly during closing is discarded —
the error propagates to the caller and the handle is NOT released. -/
theorem areset_propagates_close_error :
    (AsyncGeneratorWareCallback.areset agc7run).1 = .error PyExc.valueError ∧
    (AsyncGeneratorWareCallback.areset agc7run).2.gen.isSome = true :=
  ⟨rfl, rfl⟩

/-! ## C8 — begin while a generator is already held -/

/-- C8: calling `begin` on a step-sequence or async-step-sequence
callback that already holds a generator — exactly the `Active` and
`Ended`-without-intervening-`reset` states — fails with the
`WareCallbackBegun` ("already begun") error, and the failed attempt
leaves the callback state (handle and `ended` flag) completely
unchanged. -/
theorem begin_twice_fails_unchanged (c : GeneratorWareCallback)
    (a : AsyncGeneratorWareCallback) (args aargs : List Val)
    (hc : c.gen.isSome = true) (ha : a.gen.isSome = true) :
    GeneratorWareCallback.begin c args = (.error .wareCallbackBegun, c) ∧
    AsyncGeneratorWareCallback.begin a aargs = (.error .wareCallbackBegun, a) := by
  constructor
  · simp [GeneratorWareCallback.begin, hc]
  · simp [AsyncGeneratorWareCallback.begin, ha]

/-- Witness for C8 at an active sync callback and a begun async
callback. -/
theorem begin_twice_fails_unchanged_witness :
    GeneratorWareCallback.begin gwcStarted [] =
      (.error .wareCallbackBegun, gwcStarted) ∧
    AsyncGeneratorWareCallback.begin agBegun [] =
      (.error .wareCallbackBegun, agBegun) :=
  begin_twice_fails_unchanged gwcStarted agBegun [] [] rfl rfl

/-! ## C10 — the `_ended` flag is never cleared -/

/-- C10: the `_ended` flag of a generator callback is never cleared:
every operation (`begin`, `run_once`, `reset`) preserves it once set,
so `has_ended` stays `true` and `is_active` stays `false` for the rest
of the object's lifetime — including after a `reset` released the
handle and a subsequent `begin` installed a fresh generator.
Consequently the per-ware dispatch of `WareManager.gen_run_once` (its
executor, `manager.py` lines 198–212) takes the begin path whenever it
reaches such a callback. -/
theorem ended_flag_never_cleared (c : GeneratorWareCallback)
    (args : List Val) (v : Val) (exc : PyExc)
    (w : WareV) (wc_name : String) (sendval : Val)
    (hend : c.ended = true) :
    (GeneratorWareCallback.begin c args).2.ended = true ∧
    (GeneratorWareCallback.run_once c v).2.ended = true ∧
    (GeneratorWareCallback.reset c exc).2.ended = true ∧
    c.has_ended = true ∧ c.is_active = false ∧
    (alookup wc_name w.callbacks = Option.some (.gen c) →
      gen_run_once_executor wc_name sendval w =
        ((GeneratorWareCallback.begin c [sendval]).1,
         setCb w wc_name (.gen (GeneratorWareCallback.begin c [sendval]).2))) := by
  refine ⟨begin_keeps_ended c args hend, run_once_keeps_ended c v hend,
    reset_keeps_ended c exc hend, hend, ?_, ?_⟩
  · simp [GeneratorWareCallback.is_active, hend]
  · intro hl
    have hact : c.is_active = false := by
      simp [GeneratorWareCallback.is_active, hend]
    unfold gen_run_once_executor
    rw [hl]
    simp [hact]

/-- A ware holding the ended callback `gwcEnded` under the name
`tick`. -/
def wareEnded : WareV :=
  { name := "E", globals := [], callbacks := [("tick", .gen gwcEnded)] }

/-- Witness for C10 at the concrete ended callback `gwcEnded` inside
`wareEnded`: the flag survives all three operations and the
`gen_run_once` dispatch takes the begin path. -/
theorem ended_flag_never_cleared_witness :
    (GeneratorWareCallback.begin gwcEnded []).2.ended = true ∧
    (GeneratorWareCallback.run_once gwcEnded Val.none).2.ended = true ∧
    (GeneratorWareCallback.reset gwcEnded PyExc.wareCallbackMustEnd).2.ended
      = true ∧
    gwcEnded.has_ended = true ∧ gwcEnded.is_active = false ∧
    gen_run_once_executor "tick" Val.none wareEnded =
      ((GeneratorWareCallback.begin gwcEnded [Val.none]).1,
       setCb wareEnded "tick"
         (.gen (GeneratorWareCallback.begin gwcEnded [Val.none]).2)) := by
  have h := ended_flag_never_cleared gwcEnded [] Val.none
    PyExc.wareCallbackMustEnd wareEnded "tick" Val.none rfl
  exact ⟨h.1, h.2.1, h.2.2.1, h.2.2.2.1, h.2.2.2.2.1, h.2.2.2.2.2 rfl⟩

/-! ## C1 — the two-ware step scenario as the code actually runs -/

/-- C1: evaluation of the code on the spec's two-ware scenario.
`_execute_on_wares` invokes `executor(name, ware)` with two arguments,
but the executor defined inside `gen_run_once` takes a single `ware`
parameter, so every call raises an arity `TypeError` inside the `try`
block.  All three `manager.step("tick", None)` calls therefore place
BOTH wares in `errors` with that `TypeError` and nothing in `successes`
— the callbacks are never begun, advanced, or completed. -/
theorem gen_run_once_scenario_all_errors :
    outcomeOf (WareManager.gen_run_once mgrAB "tick" Val.none Option.none) =
      Option.some ([], [("A", .typeErrorArity), ("B", .typeErrorArity)]) ∧
    outcomeOf (WareManager.gen_run_once mgrAB1 "tick" Val.none Option.none) =
      Option.some ([], [("A", .typeErrorArity), ("B", .typeErrorArity)]) ∧
    outcomeOf (WareManager.gen_run_once mgrAB2 "tick" Val.none Option.none) =
      Option.some ([], [("A", .typeErrorArity), ("B", .typeErrorArity)]) ∧
    (stateOf (WareManager.gen_run_once mgrAB "tick" Val.none Option.none)
        mgrAB).wares.map
      (fun p => ((p.2.callbacks.map (fun q =>
        match q.2 with
        | .gen c => (q.1, c.is_active, c.has_ended)
        | _ => (q.1, false, false)))))
      = [[("tick", false, false)], [("tick", false, false)]] :=
  ⟨rfl, rfl, rfl, rfl⟩

/-! ## C3 — a raising `reset` callback, as the code actually runs -/

/-- A ware whose `reset` callback is a plain callback that raises
`ValueError`. -/
def wareResetRaises : WareV :=
  { name := "W", globals := [],
    callbacks := [("reset", .plain (fun _ => .error .valueError))] }

/-- C3: evaluation of the code at the failing input.  Because the
executor defined inside `WareManager.reset` takes one parameter but
`_execute_on_wares` calls it with two, the three-phase reset body never
runs: the ware lands in `errors` with the arity `TypeError` and never in
`successes` — contrary to the claim that a raising `reset` callback is
swallowed and the ware reported in `successes` with `None`.  (The
phase-3 logic itself, `resetPhase3`, would indeed swallow the error, as
the second conjunct shows.) -/
theorem manager_reset_reports_arity_error :
    outcomeOf
        (WareManager.reset (WareManager.init [wareResetRaises] okResetter)
          Option.none) =
      Option.some ([], [("W", .typeErrorArity)]) ∧
    resetPhase3 wareResetRaises.callbacks = Option.none :=
  ⟨rfl, rfl⟩

/-! ## C2 — the success/error partition invariant -/

/-- A lookup succeeds exactly when the key occurs in the dict. -/
theorem alookup_isSome_iff {α : Type} (k : String) (l : List (String × α)) :
    (alookup k l).isSome = true ↔ k ∈ l.map Prod.fst := by
  induction l with
  | nil => simp [alookup]
  | cons p rest ih =>
    by_cases h : p.1 = k
    · simp [alookup, h]
    · simp [alookup, h, ih, Ne.symm h]

/-- Key membership after a dict assignment. -/
theorem mem_keys_dictInsert {α : Type} (d : List (String × α)) (k a : String)
    (v : α) :
    a ∈ (dictInsert d k v).map Prod.fst ↔ a ∈ d.map Prod.fst ∨ a = k := by
  induction d with
  | nil => simp [dictInsert]
  | cons p rest ih =>
    by_cases h : p.1 = k
    · subst h
      simp [dictInsert]
      tauto
    · simp [dictInsert, h, ih]
      tauto

/-- Dict assignment preserves distinctness of keys. -/
theorem nodup_keys_dictInsert {α : Type} (d : List (String × α)) (k : String)
    (v : α) (h : (d.map Prod.fst).Nodup) :
    ((dictInsert d k v).map Prod.fst).Nodup := by
  induction d with
  | nil => simp [dictInsert]
  | cons p rest ih =>
    simp only [List.map_cons, List.nodup_cons] at h
    by_cases hk : p.1 = k
    · subst hk
      simpa [dictInsert] using h
    · simp only [dictInsert, hk, if_false, List.map_cons, List.nodup_cons]
      refine ⟨?_, ih h.2⟩
      rw [mem_keys_dictInsert]
      rintro (hm | hm)
      · exact h.1 hm
      · exact hk hm

/-- Key membership in the dict built by `_select_wares` from an explicit
name list. -/
theorem select_fold_mem (M : WareManager) (ns : List String)
    (acc : List (String × WareV)) (a : String) :
    a ∈ ((ns.foldl
          (fun d n =>
            match alookup n M.wares with
            | Option.some w => dictInsert d n w
            | Option.none => d)
          acc).map Prod.fst) ↔
      a ∈ acc.map Prod.fst ∨ (a ∈ ns ∧ a ∈ M.wares.map Prod.fst) := by
  induction ns generalizing acc with
  | nil => simp
  | cons n ns ih =>
    rw [List.foldl_cons, ih]
    cases hl : alookup n M.wares with
    | none =>
      have hn : ¬ n ∈ M.wares.map Prod.fst := by
        rw [← alookup_isSome_iff, hl]
        simp
      simp only [List.mem_cons]
      constructor
      · rintro (h | h)
        · exact Or.inl h
        · exact Or.inr ⟨Or.inr h.1, h.2⟩
      · rintro (h | ⟨(rfl | h1), h2⟩)
        · exact Or.inl h
        · exact absurd h2 hn
        · exact Or.inr ⟨h1, h2⟩
    | some w =>
      have hn : n ∈ M.wares.map Prod.fst := by
        rw [← alookup_isSome_iff, hl]
        rfl
      rw [mem_keys_dictInsert]
      simp only [List.mem_cons]
      constructor
      · rintro ((h | rfl) | h)
        · exact Or.inl h
        · exact Or.inr ⟨Or.inl rfl, hn⟩
        · exact Or.inr ⟨Or.inr h.1, h.2⟩
      · rintro (h | ⟨(rfl | h1), h2⟩)
        · exact Or.inl (Or.inl h)
        · exact Or.inl (Or.inr rfl)
        · exact Or.inr ⟨h1, h2⟩

/-- The dict built by `_select_wares` from an explicit name list has
distinct keys. -/
theorem select_fold_nodup (M : WareManager) (ns : List String)
    (acc : List (String × WareV)) (h : (acc.map Prod.fst).Nodup) :
    (((ns.foldl
          (fun d n =>
            match alookup n M.wares with
            | Option.some w => dictInsert d n w
            | Option.none => d)
          acc)).map Prod.fst).Nodup := by
  induction ns generalizing acc with
  | nil => simpa using h
  | cons n ns ih =>
    rw [List.foldl_cons]
    cases hl : alookup n M.wares with
    | none => exact ih _ h
    | some w => exact ih _ (nodup_keys_dictInsert _ _ _ h)

/-- Whether a ware name is targeted by the selection argument of a bulk
operation: every name when the argument is `None`, otherwise membership
in the given list. -/
def targetsName (wn : Option (List String)) (a : String) : Prop :=
  match wn with
  | Option.none => True
  | Option.some ns => a ∈ ns

/-- The keys of the selected wares are exactly the targeted names that
are present in the registry. -/
theorem select_wares_keys_mem (M : WareManager) (wn : Option (List String))
    (a : String) :
    a ∈ ((M.select_wares wn).map Prod.fst) ↔
      targetsName wn a ∧ a ∈ M.wares.map Prod.fst := by
  cases wn with
  | none => simp [WareManager.select_wares, targetsName]
  | some ns =>
    rw [WareManager.select_wares, select_fold_mem]
    simp [targetsName]

/-- The selected wares have distinct names. -/
theorem select_wares_keys_nodup (M : WareManager) (wn : Option (List String))
    (h : (M.wares.map Prod.fst).Nodup) :
    ((M.select_wares wn).map Prod.fst).Nodup := by
  cases wn with
  | none => exact h
  | some ns => exact select_fold_nodup M ns [] (by simp)

/-- Name-count bookkeeping of the `_execute_on_wares` iteration: when it
returns normally, each name's multiplicity in `successes` plus its
multiplicity in `errors` equals its multiplicity in the accumulators
plus the pending wares. -/
theorem execGo_count (ex : PyFun) (pending : List (String × WareV)) :
    ∀ (succ : List (String × Val)) (errs : List (String × PyExc))
      (M : WareManager) (s' : List (String × Val)) (e' : List (String × PyExc))
      (M' : WareManager),
      execGo ex pending succ errs M = .ok (s', e', M') →
      ∀ a, (s'.map Prod.fst).count a + (e'.map Prod.fst).count a =
        (succ.map Prod.fst).count a + (errs.map Prod.fst).count a +
        (pending.map Prod.fst).count a := by
  induction pending with
  | nil =>
    intro succ errs M s' e' M' h a
    simp only [execGo, Except.ok.injEq, Prod.mk.injEq] at h
    obtain ⟨h1, h2, _⟩ := h
    subst h1; subst h2
    simp
  | cons p rest ih =>
    intro succ errs M s' e' M' h a
    obtain ⟨n, w⟩ := p
    rw [execGo] at h
    rcases hc : PyFun.call2 ex n w with ⟨r, w'⟩
    rw [hc] at h
    cases r with
    | ok v =>
      have := ih (succ ++ [(n, v)]) errs _ s' e' M' h a
      simp only [List.map_append, List.count_append, List.map_cons,
        List.count_cons, List.map_nil, List.count_nil] at this ⊢
      omega
    | error e =>
      have h2 : (if e.isException = true then
          execGo ex rest succ (errs ++ [(n, e)])
            { M with wares := dictInsert M.wares n w' }
        else Except.error e) = Except.ok (s', e', M') := h
      by_cases he : e.isException
      · rw [if_pos he] at h2
        have := ih succ (errs ++ [(n, e)]) _ s' e' M' h2 a
        simp only [List.map_append, List.count_append, List.map_cons,
          List.count_cons, List.map_nil, List.count_nil] at this ⊢
        omega
      · rw [if_neg he] at h2
        exact absurd h2 (by simp)

/-- C2: for every bulk manager operation (`begin`, `abegin`, `run_once`,
`gen_run_once`, `agen_run_once`, `reset`, `areset`) and every optional
ware-name selection, whenever the operation returns a
`(successes, errors)` pair, the union of the two key sets is exactly the
set of targeted ware names present in the registry, and the two key sets
are disjoint. -/
theorem runBulk_success_error_partition (M : WareManager) (op : BulkOp)
    (s : List (String × Val)) (e : List (String × PyExc)) (M' : WareManager)
    (hnd : (M.wares.map Prod.fst).Nodup)
    (h : M.runBulk op = .ok (s, e, M')) :
    (∀ a, (a ∈ s.map Prod.fst ∨ a ∈ e.map Prod.fst) ↔
        targetsName op.wNames a ∧ a ∈ M.wares.map Prod.fst) ∧
    ∀ a, ¬(a ∈ s.map Prod.fst ∧ a ∈ e.map Prod.fst) := by
  have main : ∀ (ex : PyFun) (wn : Option (List String)),
      execGo ex (M.select_wares wn) [] [] M = .ok (s, e, M') →
      ((∀ a, (a ∈ s.map Prod.fst ∨ a ∈ e.map Prod.fst) ↔
          targetsName wn a ∧ a ∈ M.wares.map Prod.fst) ∧
       ∀ a, ¬(a ∈ s.map Prod.fst ∧ a ∈ e.map Prod.fst)) := by
    intro ex wn hg
    have hcount := execGo_count ex (M.select_wares wn) [] [] M s e M' hg
    have hselnd := select_wares_keys_nodup M wn hnd
    constructor
    · intro a
      have h1 := hcount a
      simp only [List.map_nil, List.count_nil] at h1
      rw [← select_wares_keys_mem M wn a]
      constructor
      · rintro (hm | hm)
        · rw [← List.count_pos_iff] at hm ⊢
          omega
        · rw [← List.count_pos_iff] at hm ⊢
          omega
      · intro hm
        rw [← List.count_pos_iff] at hm
        by_cases hs : a ∈ s.map Prod.fst
        · exact Or.inl hs
        · right
          rw [← List.count_pos_iff] at hs ⊢
          omega
    · rintro a ⟨hs, he⟩
      have h1 := hcount a
      simp only [List.map_nil, List.count_nil] at h1
      have hle := List.nodup_iff_count_le_one.1 hselnd a
      rw [← List.count_pos_iff] at hs he
      omega
  cases op with
  | beginOp n args wn => exact main _ wn h
  | abeginOp n args wn => exact main _ wn h
  | runOnceOp n args wn => exact main _ wn h
  | genRunOnceOp n v wn => exact main _ wn h
  | agenRunOnceOp n v wn => exact main _ wn h
  | resetOp wn => exact main _ wn h
  | aresetOp wn => exact main _ wn h

/-- A one-ware manager used to witness the partition invariant. -/
def wWitness : WareV :=
  { name := "W", globals := [],
    callbacks := [("f", .plain (fun _ => .ok (Val.int 0)))] }

/-- Manager over `wWitness`. -/
def mgrW : WareManager := WareManager.init [wWitness] okResetter

/-- Witness for C2: the partition invariant instantiated on a concrete
one-ware `run_once` batch (which ends in `errors` because of the arity
mismatch), checked at the name `W`. -/
theorem runBulk_success_error_partition_witness :
    (("W" ∈ (([] : List (String × Val)).map Prod.fst) ∨
      "W" ∈ ([("W", PyExc.typeErrorArity)].map Prod.fst)) ↔
      targetsName Option.none "W" ∧ "W" ∈ mgrW.wares.map Prod.fst) ∧
    ¬("W" ∈ (([] : List (String × Val)).map Prod.fst) ∧
      "W" ∈ ([("W", PyExc.typeErrorArity)].map Prod.fst)) :=
  ⟨(runBulk_success_error_partition mgrW (.runOnceOp "f" [] Option.none)
      [] [("W", PyExc.typeErrorArity)] _ (by decide) rfl).1 "W",
   (runBulk_success_error_partition mgrW (.runOnceOp "f" [] Option.none)
      [] [("W", PyExc.typeErrorArity)] _ (by decide) rfl).2 "W"⟩

/-! ## C9 — what `Ware._load` stores -/

/-- Build a dict from a list of entries in order. -/
def buildDict (l : List (String × PyObj)) : List (String × PyObj) :=
  l.foldl (fun d kv => dictInsert d kv.1 kv.2) []

/-- The loader loop only ever stores schema entries: on success, the
accumulated mappings are the folds of the schema entries routed by the
`isinstance(v, (WareCallback, GeneratorWareCallback))` check on the
SCHEMA value — the module influences only whether loading succeeds. -/
theorem loadGo_spec (m : PyModule) (schema : List (String × PyObj)) :
    ∀ (gl cbs gl' cbs' : List (String × PyObj)),
      loadGo m schema gl cbs = .ok (gl', cbs') →
      gl' = (schema.filter (fun kv => !kv.2.isWareCallbackInst)).foldl
          (fun d kv => dictInsert d kv.1 kv.2) gl ∧
      cbs' = (schema.filter (fun kv => kv.2.isWareCallbackInst)).foldl
          (fun d kv => dictInsert d kv.1 kv.2) cbs := by
  induction schema with
  | nil =>
    intro gl cbs gl' cbs' h
    simp only [loadGo, Except.ok.injEq, Prod.mk.injEq] at h
    obtain ⟨h1, h2⟩ := h
    subst h1; subst h2
    simp
  | cons kv rest ih =>
    intro gl cbs gl' cbs' h
    obtain ⟨k, v⟩ := kv
    rw [loadGo] at h
    cases hchk : loadCheck k v m with
    | error e =>
      rw [hchk] at h
      exact absurd (h : Except.error e = Except.ok (gl', cbs')) (by simp)
    | ok u =>
      rw [hchk] at h
      have h3 : (if v.isWareCallbackInst = true then
          loadGo m rest gl (dictInsert cbs k v)
        else loadGo m rest (dictInsert gl k v) cbs) = .ok (gl', cbs') := h
      by_cases hwc : v.isWareCallbackInst
      · rw [if_pos hwc] at h3
        have := ih gl (dictInsert cbs k v) gl' cbs' h3
        simpa [List.filter_cons, hwc] using this
      · rw [if_neg hwc] at h3
        have := ih (dictInsert gl k v) cbs gl' cbs' h3
        simp only [Bool.not_eq_true] at hwc
        simpa [List.filter_cons, hwc] using this

/-- C9: whenever `Ware._load` succeeds, the resulting ware's `callbacks`
and `globals` mappings hold the schema's own entries, never the loaded
module's member values: a key is routed to `callbacks` exactly when its
SCHEMA entry is a `WareCallback`/`GeneratorWareCallback` instance, and
to `globals` otherwise — the mappings are computed from the schema
alone. -/
theorem load_stores_schema_entries (m : PyModule)
    (schema : List (String × PyObj)) (nm : Option String)
    (w : Ware PyObj PyObj) (h : Ware.load m schema nm = .ok w) :
    w.callbacks = buildDict (schema.filter (fun kv => kv.2.isWareCallbackInst)) ∧
    w.globals = buildDict (schema.filter (fun kv => !kv.2.isWareCallbackInst)) := by
  rw [Ware.load.eq_def] at h
  cases hgo : loadGo m schema [] [] with
  | error e =>
    rw [hgo] at h
    exact absurd (h : Except.error e = Except.ok w) (by simp)
  | ok p =>
    obtain ⟨gl, cbs⟩ := p
    rw [hgo] at h
    have h4 : Except.ok (Ware.mk (resolveName nm m) gl cbs) = Except.ok w := h
    have hw := Except.ok.inj h4
    obtain ⟨hgl, hcbs⟩ := loadGo_spec m schema [] [] gl cbs hgo
    rw [← hw]
    exact ⟨hcbs, hgl⟩

/-- A module member object (what the module actually exposes — never
stored). -/
def objMem : PyObj :=
  { id := 10, isTypeObj := false, instCheck := fun _ => true,
    callableObj := false, callOn := fun _ => .truthy,
    isWareCallbackInst := false }

/-- A schema entry that is not a callback instance (a plain expected
value). -/
def objGlobal : PyObj :=
  { id := 1, isTypeObj := false, instCheck := fun _ => true,
    callableObj := false, callOn := fun _ => .truthy,
    isWareCallbackInst := false }

/-- A schema entry that is a `WareCallback` instance. -/
def objCb : PyObj :=
  { id := 2, isTypeObj := false, instCheck := fun _ => true,
    callableObj := false, callOn := fun _ => .truthy,
    isWareCallbackInst := true }

/-- The witness schema: one global, one callback entry. -/
def schemaW : List (String × PyObj) := [("g", objGlobal), ("cb", objCb)]

/-- The witness module exposing members under both names. -/
def modW : PyModule :=
  { name := "m", dict := [("g", objMem), ("cb", objMem)] }

/-- The ware produced by loading `modW` against `schemaW`. -/
def wLoaded : Ware PyObj PyObj :=
  match Ware.load modW schemaW Option.none with
  | .ok w => w
  | .error _ => ⟨"", [], []⟩

/-- Witness for C9: loading succeeds on the concrete module and the
stored mappings are the schema-entry folds. -/
theorem load_stores_schema_entries_witness :
    wLoaded.callbacks =
      buildDict (schemaW.filter (fun kv => kv.2.isWareCallbackInst)) ∧
    wLoaded.globals =
      buildDict (schemaW.filter (fun kv => !kv.2.isWareCallbackInst)) :=
  load_stores_schema_entries modW schemaW Option.none wLoaded rfl
